import Mathlib

/-!
# Healthcare assessment: data normalization and risk classification

A shallow embedding of the repository's core (`src/data-processor.ts`,
`src/risk-calculator.ts`, and the alert aggregation in the main
application file).  JavaScript numbers are modelled as rationals (`ℚ`);
loosely-typed field values as the inductive `Value`; fallible parsing as
`Option ℚ`.  Every definition mirrors the corresponding TypeScript
function; comments note the few places where a JavaScript built-in
(`String.prototype.trim`, `parseFloat`, `Math.round`) is modelled.
-/

set_option maxRecDepth 20000

namespace Healthcare

/-- A loosely-typed JavaScript value as the normalizers receive it:
`null`, `undefined`, a finite number, `NaN` (which has `typeof 'number'`
but fails `isNaN` checks), a string, a boolean, or a structured object
carrying `systolic`/`diastolic` members (an absent member reads as
`undefined`). -/
inductive Value where
  | null
  | undefined
  | num (q : ℚ)
  | nan
  | str (s : String)
  | bool (b : Bool)
  | obj (systolic : Value) (diastolic : Value)
deriving DecidableEq

/-- ASCII whitespace recognised by the model of `String.prototype.trim`. -/
def jsWs (c : Char) : Bool :=
  c = ' ' || c = '\t' || c = '\n' || c = '\r' || c = '\x0b' || c = '\x0c'

/-- Model of JavaScript `String.prototype.trim` (restricted to ASCII
whitespace; the repository's data never carries Unicode spaces). -/
def jsTrim (s : String) : String :=
  String.mk (((s.toList.dropWhile jsWs).reverse.dropWhile jsWs).reverse)

/-- Numeric value of a decimal digit character. -/
def digitVal (c : Char) : ℕ := c.toNat - '0'.toNat

/-- Decimal digits folded into a natural number. -/
def digitsToNat (ds : List Char) : ℕ :=
  ds.foldl (fun a c => 10 * a + digitVal c) 0

/-- Split a character list into its longest digit prefix and the rest. -/
def takeDigits (cs : List Char) : List Char × List Char :=
  (cs.takeWhile Char.isDigit, cs.dropWhile Char.isDigit)

/-- Model of JavaScript `parseFloat`: skip leading whitespace, optional
sign, longest prefix of the form `digits [. digits] [e/E [sign] digits]`,
trailing garbage ignored; `none` models `NaN` (no digits found at all).
`Infinity` is not modelled: every call site range-checks the result, and
an infinite reading fails every range check exactly as `none` does. -/
def parseFloat (s : String) : Option ℚ :=
  let cs := s.toList.dropWhile jsWs
  let signAndRest : ℚ × List Char :=
    match cs with
    | '-' :: r => (-1, r)
    | '+' :: r => (1, r)
    | r => (1, r)
  let sign := signAndRest.1
  let ipRest := takeDigits signAndRest.2
  let ip := ipRest.1
  let fpRest : List Char × List Char :=
    match ipRest.2 with
    | '.' :: r => takeDigits r
    | r => ([], r)
  let fp := fpRest.1
  if ip.isEmpty && fp.isEmpty then none
  else
    let mant : ℚ := (digitsToNat ip : ℚ) + (digitsToNat fp : ℚ) / (10 ^ fp.length : ℚ)
    let e : ℤ :=
      match fpRest.2 with
      | 'e' :: r => parseExp r
      | 'E' :: r => parseExp r
      | _ => 0
    some (sign * mant * (10 : ℚ) ^ e)
where
  /-- Exponent part of `parseFloat`: optional sign then digits; an
  exponent marker not followed by digits contributes factor 1. -/
  parseExp (r : List Char) : ℤ :=
    match r with
    | '-' :: rr => -(digitsToNat (takeDigits rr).1 : ℤ)
    | '+' :: rr => (digitsToNat (takeDigits rr).1 : ℤ)
    | rr => (digitsToNat (takeDigits rr).1 : ℤ)

/-- Model of JavaScript `Math.round` for finite values: round half
toward positive infinity, i.e. `⌊q + 1/2⌋`. -/
def jsRound (q : ℚ) : ℚ := (⌊q + 1 / 2⌋ : ℤ)

/-- Lower-case an ASCII letter (model of `toLowerCase` on the ASCII
range, which is all the checked patterns use). -/
def lowerChar (c : Char) : Char :=
  if 'A' ≤ c ∧ c ≤ 'Z' then Char.ofNat (c.toNat + 32) else c

/-- Does `cs` start with `pat`? -/
def leadsWith : List Char → List Char → Bool
  | [], _ => true
  | _ :: _, [] => false
  | a :: as, b :: bs => a = b && leadsWith as bs

/-- Does `cs` contain `pat` as a contiguous run? -/
def hasSub (pat : List Char) : List Char → Bool
  | [] => leadsWith pat []
  | c :: rest => leadsWith pat (c :: rest) || hasSub pat rest

/-- Model of `t.toLowerCase().includes(pat)` for an ASCII pattern. -/
def containsCI (t : String) (pat : String) : Bool :=
  hasSub (pat.toList.map lowerChar) (t.toList.map lowerChar)

/-- Model of JavaScript `String.prototype.split('/')`: the list of
runs between `/` separators, keeping empty runs. -/
def splitSlash : List Char → List (List Char)
  | [] => [[]]
  | c :: rest =>
    if c = '/' then [] :: splitSlash rest
    else
      match splitSlash rest with
      | [] => [[c]]
      | h :: t => (c :: h) :: t

/-- The FieldResult shape for age and temperature: `data-processor.ts` returns
`{ valid, value?, original }`; the raw `original` echo carries no logic
and is omitted. -/
structure NumData where
  valid : Bool
  value : Option ℚ
deriving DecidableEq

/-- The FieldResult shape for blood pressure:
`{ valid, systolic?, diastolic?, original }` without the raw echo. -/
structure BPData where
  valid : Bool
  systolic : Option ℚ
  diastolic : Option ℚ
deriving DecidableEq

/-- Structure ProcessedPatient from `types.ts` (the optional cached
`total_risk_score` is never written by the core and is omitted). -/
structure ProcessedPatient where
  id : String
  age_data : NumData
  blood_pressure_data : BPData
  temperature_data : NumData
deriving DecidableEq

/-- A raw `Patient` record as the batch entry point consumes it:
`patient_id` is the interface-declared string (possibly absent), the
three clinical fields are loosely typed. -/
structure Patient where
  patient_id : Option String
  age : Value
  blood_pressure : Value
  temperature : Value
deriving DecidableEq

/-- The regular expression `^\d+(\.\d+)?$` from `DataProcessor.processAge`:
one or more digits, optionally a dot followed by one or more digits. -/
def agePattern (t : String) : Bool :=
  let ipRest := takeDigits t.toList
  if ipRest.1.isEmpty then false
  else
    match ipRest.2 with
    | [] => true
    | d :: r => d = '.' && (!r.isEmpty && r.all Char.isDigit)

/-- Embeds `DataProcessor.processAge`. -/
def processAge (age : Value) : NumData :=
  match age with
  | .null => ⟨false, none⟩
  | .undefined => ⟨false, none⟩
  | .num q => if 0 < q ∧ q < 150 then ⟨true, some q⟩ else ⟨false, none⟩
  | .nan => ⟨false, none⟩
  | .str s =>
    if s = "" then ⟨false, none⟩
    else
      let t := jsTrim s
      if agePattern t then
        match parseFloat t with
        | some q => if 0 < q ∧ q < 150 then ⟨true, some (jsRound q)⟩ else ⟨false, none⟩
        | none => ⟨false, none⟩
      else ⟨false, none⟩
  | _ => ⟨false, none⟩

/-- Embeds `DataProcessor.parseNumericValue`. -/
def parseNumericValue (v : Value) : Option ℚ :=
  match v with
  | .num q => some q
  | .nan => none
  | .str s =>
    let t := jsTrim s
    if t = "" then none else parseFloat t
  | _ => none

/-- Embeds `DataProcessor.isValidBloodPressureValue`. -/
def isValidBloodPressureValue (v : ℚ) (isSystolic : Bool) : Bool :=
  if isSystolic then decide (70 ≤ v ∧ v ≤ 300) else decide (40 ≤ v ∧ v ≤ 200)

/-- Embeds `DataProcessor.isValidTemperature`. -/
def isValidTemperature (v : ℚ) : Bool :=
  decide (90 ≤ v ∧ v ≤ 110)

/-- Embeds `DataProcessor.processBloodPressure`. -/
def processBloodPressure (bp : Value) : BPData :=
  match bp with
  | .null => ⟨false, none, none⟩
  | .undefined => ⟨false, none, none⟩
  | .str s =>
    if s = "" then ⟨false, none, none⟩
    else
      let t := jsTrim s
      if containsCI t "invalid" || containsCI t "n/a" || containsCI t "error" then
        ⟨false, none, none⟩
      else if t.toList.contains '/' then
        match splitSlash t.toList with
        | [a, b] =>
          let sysT := jsTrim (String.mk a)
          let diaT := jsTrim (String.mk b)
          if sysT = "" || diaT = "" then ⟨false, none, none⟩
          else
            match parseNumericValue (.str sysT), parseNumericValue (.str diaT) with
            | some sy, some di =>
              if isValidBloodPressureValue sy true && isValidBloodPressureValue di false then
                ⟨true, some sy, some di⟩
              else ⟨false, none, none⟩
            | _, _ => ⟨false, none, none⟩
        | _ => ⟨false, none, none⟩
      else ⟨false, none, none⟩
  | .obj sysV diaV =>
    match parseNumericValue sysV, parseNumericValue diaV with
    | some sy, some di =>
      if isValidBloodPressureValue sy true && isValidBloodPressureValue di false then
        ⟨true, some sy, some di⟩
      else ⟨false, none, none⟩
    | _, _ => ⟨false, none, none⟩
  | _ => ⟨false, none, none⟩

/-- The unit-stripping step of `processTemperature`: remove the
characters matched by `/[°ºf℉]/gi`. -/
def stripUnits (cs : List Char) : List Char :=
  cs.filter (fun c => !(c = '°' || c = 'º' || c = 'f' || c = 'F' || c = '℉'))

/-- Embeds `DataProcessor.processTemperature`. -/
def processTemperature (temp : Value) : NumData :=
  match temp with
  | .null => ⟨false, none⟩
  | .undefined => ⟨false, none⟩
  | .num q => if isValidTemperature q then ⟨true, some q⟩ else ⟨false, none⟩
  | .nan => ⟨false, none⟩
  | .str s =>
    if s = "" then ⟨false, none⟩
    else
      let t := jsTrim s
      if containsCI t "temp_error" || containsCI t "invalid" ||
          containsCI t "n/a" || containsCI t "error" then
        ⟨false, none⟩
      else
        let clean := jsTrim (String.mk (stripUnits t.toList))
        match parseNumericValue (.str clean) with
        | some q => if isValidTemperature q then ⟨true, some q⟩ else ⟨false, none⟩
        | none => ⟨false, none⟩
  | _ => ⟨false, none⟩

/-- Embeds `DataProcessor.processPatient`: the id is the raw `patient_id`
verbatim (the source's `validatePatientId` helper is never invoked). -/
def processPatient (pid : String) (p : Patient) : ProcessedPatient :=
  { id := pid
    age_data := processAge p.age
    blood_pressure_data := processBloodPressure p.blood_pressure
    temperature_data := processTemperature p.temperature }

/-- Embeds `DataProcessor.processPatients`: records whose `patient_id` is falsy
(absent or the empty string) are skipped; `processPatient` cannot throw,
so the `try/catch` in the source is dead. -/
def processPatients (ps : List Patient) : List ProcessedPatient :=
  ps.filterMap fun p =>
    match p.patient_id with
    | none => none
    | some s => if s = "" then none else some (processPatient s p)

/-- Embeds `DataProcessor.hasDataQualityIssues`. -/
def hasDataQualityIssues (p : ProcessedPatient) : Bool :=
  !p.age_data.valid || !p.blood_pressure_data.valid || !p.temperature_data.valid

/-- The statistics record returned by `getProcessingStats`. -/
structure Stats where
  total : ℕ
  validAge : ℕ
  validBP : ℕ
  validTemp : ℕ
  fullyValid : ℕ
  dataQualityIssues : ℕ
deriving DecidableEq

/-- One iteration of the `getProcessingStats` loop. -/
def statStep (st : Stats) (p : ProcessedPatient) : Stats :=
  { st with
    validAge := st.validAge + (if p.age_data.valid then 1 else 0)
    validBP := st.validBP + (if p.blood_pressure_data.valid then 1 else 0)
    validTemp := st.validTemp + (if p.temperature_data.valid then 1 else 0)
    fullyValid := st.fullyValid +
      (if p.age_data.valid && p.blood_pressure_data.valid && p.temperature_data.valid
       then 1 else 0)
    dataQualityIssues := st.dataQualityIssues +
      (if p.age_data.valid && p.blood_pressure_data.valid && p.temperature_data.valid
       then 0 else 1) }

/-- Embeds `DataProcessor.getProcessingStats`. -/
def getProcessingStats (ps : List ProcessedPatient) : Stats :=
  ps.foldl statStep ⟨ps.length, 0, 0, 0, 0, 0⟩

/-- Enum `BloodPressureStage` from `types.ts`. -/
inductive BloodPressureStage where
  | normal
  | elevated
  | stage_1
  | stage_2
  | invalid
deriving DecidableEq

/-- Enum `TemperatureCategory` from `types.ts`. -/
inductive TemperatureCategory where
  | normal
  | low_fever
  | high_fever
  | invalid
deriving DecidableEq

/-- The final-stage decision chain of
`RiskCalculator.calculateBloodPressureRisk` (the `systolicStage` /
`diastolicStage` variables computed earlier in the source are never
read and are omitted as dead code). -/
def bpFinalStage (systolic diastolic : ℚ) : BloodPressureStage :=
  if systolic < 120 ∧ diastolic < 80 then .normal
  else if 120 ≤ systolic ∧ systolic ≤ 129 ∧ diastolic < 80 then .elevated
  else if (130 ≤ systolic ∧ systolic ≤ 139) ∨ (80 ≤ diastolic ∧ diastolic ≤ 89) then .stage_1
  else if 140 ≤ systolic ∨ 90 ≤ diastolic then .stage_2
  else .invalid

/-- The stage-to-score `switch` at the end of
`calculateBloodPressureRisk`. -/
def stageScore : BloodPressureStage → ℕ
  | .normal => 1
  | .elevated => 2
  | .stage_1 => 3
  | .stage_2 => 4
  | .invalid => 0

/-- Embeds `RiskCalculator.calculateBloodPressureRisk`. -/
def calculateBloodPressureRisk (p : ProcessedPatient) : ℕ :=
  match p.blood_pressure_data with
  | ⟨true, some sy, some di⟩ => stageScore (bpFinalStage sy di)
  | _ => 0

/-- Embeds `RiskCalculator.calculateTemperatureRisk`. -/
def calculateTemperatureRisk (p : ProcessedPatient) : ℕ :=
  match p.temperature_data with
  | ⟨true, some t⟩ =>
    if t ≤ 99.5 then 0
    else if 99.6 ≤ t ∧ t ≤ 100.9 then 1
    else if 101 ≤ t then 2
    else 0
  | _ => 0

/-- Embeds `RiskCalculator.calculateAgeRisk`. -/
def calculateAgeRisk (p : ProcessedPatient) : ℕ :=
  match p.age_data with
  | ⟨true, some a⟩ =>
    if a < 40 then 1
    else if 40 ≤ a ∧ a ≤ 65 then 1
    else if 65 < a then 2
    else 0
  | _ => 0

/-- Embeds `RiskCalculator.calculateTotalRisk`. -/
def calculateTotalRisk (p : ProcessedPatient) : ℕ :=
  calculateBloodPressureRisk p + calculateTemperatureRisk p + calculateAgeRisk p

/-- Embeds `RiskCalculator.isHighRisk`. -/
def isHighRisk (p : ProcessedPatient) : Bool :=
  decide (4 ≤ calculateTotalRisk p)

/-- Embeds `RiskCalculator.hasFever`. -/
def hasFever (p : ProcessedPatient) : Bool :=
  p.temperature_data.valid &&
    match p.temperature_data.value with
    | some v => decide (99.6 ≤ v)
    | none => false

/-- Embeds `RiskCalculator.getTemperatureCategory`. -/
def getTemperatureCategory (p : ProcessedPatient) : TemperatureCategory :=
  match p.temperature_data with
  | ⟨true, some t⟩ =>
    if t ≤ 99.5 then .normal
    else if 99.6 ≤ t ∧ t ≤ 100.9 then .low_fever
    else if 101 ≤ t then .high_fever
    else .invalid
  | _ => .invalid

/-- Structure `SubmissionData` from `types.ts`. -/
structure SubmissionData where
  high_risk_patients : List String
  fever_patients : List String
  data_quality_issues : List String
deriving DecidableEq

/-- Embeds `HealthcareAssessmentApp.generateAlerts`: one pass over the
processed patients pushing ids into three independent lists, written
here as three order-preserving filters. -/
def generateAlerts (ps : List ProcessedPatient) : SubmissionData :=
  { high_risk_patients := (ps.filter (fun p => 4 ≤ calculateTotalRisk p)).map (·.id)
    fever_patients := (ps.filter (fun p => hasFever p)).map (·.id)
    data_quality_issues := (ps.filter (fun p => hasDataQualityIssues p)).map (·.id) }

/-- The three-record batch of the spec's end-to-end example. -/
def demoBatch : List Patient :=
  [⟨some "A", .num 45, .str "120/80", .num 98.6⟩,
   ⟨some "B", .num 67, .str "140/90", .num 99.2⟩,
   ⟨some "C", .null, .str "invalid", .num 101.8⟩]

/-- A processed patient carrying only a valid blood-pressure pair, for
exercising the blood-pressure decision tree. -/
def mkBP (sy di : ℚ) : ProcessedPatient :=
  ⟨"bp", ⟨false, none⟩, ⟨true, some sy, some di⟩, ⟨false, none⟩⟩

/-- A processed patient carrying only a valid temperature reading. -/
def mkTemp (v : ℚ) : ProcessedPatient :=
  ⟨"t", ⟨false, none⟩, ⟨false, none, none⟩, ⟨true, some v⟩⟩

/-- A processed patient whose valid temperature 99.55 lies in the gap
between the Normal band (≤ 99.5) and the Low Fever band (≥ 99.6). -/
def tempGapPatient : ProcessedPatient :=
  ⟨"gap", ⟨false, none⟩, ⟨false, none, none⟩, processTemperature (.num 99.55)⟩

/-- A processed patient with every clinical field invalid. -/
def allInvalidPatient : ProcessedPatient :=
  ⟨"inv", ⟨false, none⟩, ⟨false, none, none⟩, ⟨false, none⟩⟩

/-- A raw record whose `patient_id` carries surrounding whitespace. -/
def paddedIdPatient : Patient :=
  ⟨some " A ", .num 45, .str "120/80", .num 98.6⟩

/-- A second processed patient sharing `mkTemp 100`'s temperature data
but differing in every other field. -/
def feverTwin : ProcessedPatient :=
  ⟨"twin", ⟨true, some 30⟩, ⟨true, some 110, some 70⟩, ⟨true, some 100⟩⟩

/-- Modelled from the claim's wording for C5 (refinement reference): the
Age Normalizer accepts a number `n` with `0 < n < 150` (returned
unrounded) or a string whose trimmed form matches the unsigned
integer-or-decimal pattern and parses to `a` with `0 < a < 150`
(returned as `round a`); null, undefined, the empty string and
non-numeric strings are invalid with no value. -/
def specAgeNormalizer (v : Value) : NumData :=
  match v with
  | .num q => if 0 < q ∧ q < 150 then ⟨true, some q⟩ else ⟨false, none⟩
  | .str s =>
    if agePattern (jsTrim s) then
      match parseFloat (jsTrim s) with
      | some q => if 0 < q ∧ q < 150 then ⟨true, some (jsRound q)⟩ else ⟨false, none⟩
      | none => ⟨false, none⟩
    else ⟨false, none⟩
  | _ => ⟨false, none⟩

/-- Modelled from the claim's wording for C6 (refinement reference): a
blood-pressure input is acceptable when it is (a) a string free of the
case-insensitive substrings "invalid", "n/a", "error" that splits at
exactly one slash into two halves that are non-empty after trimming and
both parseable by the permissive numeric parser, or (b) an object whose
systolic and diastolic members are numeric-coercible — and in both
cases systolic lies in [70,300] and diastolic in [40,200]. -/
def bpClaimValid : Value → Prop
  | .str s =>
    containsCI (jsTrim s) "invalid" = false ∧
    containsCI (jsTrim s) "n/a" = false ∧
    containsCI (jsTrim s) "error" = false ∧
    ∃ a b sy di,
      splitSlash (jsTrim s).toList = [a, b] ∧
      jsTrim (String.mk a) ≠ "" ∧ jsTrim (String.mk b) ≠ "" ∧
      parseNumericValue (.str (jsTrim (String.mk a))) = some sy ∧
      parseNumericValue (.str (jsTrim (String.mk b))) = some di ∧
      70 ≤ sy ∧ sy ≤ 300 ∧ 40 ≤ di ∧ di ≤ 200
  | .obj sysV diaV =>
    ∃ sy di,
      parseNumericValue sysV = some sy ∧ parseNumericValue diaV = some di ∧
      70 ≤ sy ∧ sy ≤ 300 ∧ 40 ≤ di ∧ di ≤ 200
  | _ => False

/-! ## Helper lemmas -/

/-- Every character of a string accepted by the age regular expression
is a decimal digit or the decimal point. -/
theorem agePattern_chars {t : String} (h : agePattern t = true) :
    ∀ c ∈ t.toList, c.isDigit = true ∨ c = '.' := by
  intro c hc
  simp only [agePattern, takeDigits] at h
  rw [← List.takeWhile_append_dropWhile (p := Char.isDigit) (l := t.toList),
    List.mem_append] at hc
  rcases hc with h1 | h2
  · exact Or.inl (List.mem_takeWhile_imp h1)
  · rcases hrest : t.toList.dropWhile Char.isDigit with _ | ⟨d, r⟩ <;>
      rw [hrest] at h h2
    · cases h2
    · split at h
      · cases h
      · simp only [Bool.and_eq_true, decide_eq_true_eq, Bool.not_eq_true',
          List.all_eq_true] at h
        obtain ⟨hd, _, hall⟩ := h
        rcases List.mem_cons.mp h2 with rfl | hcr
        · exact Or.inr hd
        · exact Or.inl (hall c hcr)

/-- The score attached to a blood-pressure stage never exceeds 4. -/
theorem stageScore_le_four (st : BloodPressureStage) : stageScore st ≤ 4 := by
  cases st <;> simp [stageScore]

/-- The blood-pressure dimension scores at most 4. -/
theorem bpRisk_le_four (p : ProcessedPatient) : calculateBloodPressureRisk p ≤ 4 := by
  unfold calculateBloodPressureRisk
  split
  · exact stageScore_le_four _
  · exact Nat.zero_le _

/-- The temperature dimension scores at most 2. -/
theorem tempRisk_le_two (p : ProcessedPatient) : calculateTemperatureRisk p ≤ 2 := by
  unfold calculateTemperatureRisk
  split
  · split_ifs <;> omega
  · exact Nat.zero_le _

/-- The age dimension scores at most 2. -/
theorem ageRisk_le_two (p : ProcessedPatient) : calculateAgeRisk p ≤ 2 := by
  unfold calculateAgeRisk
  split
  · split_ifs <;> omega
  · exact Nat.zero_le _

/-! ## Claim theorems -/

/-- C1 (counterexample): on the spec's three-record example batch the
pipeline's high-risk list is not `["B"]` — patient A (age 45,
blood pressure 120/80, temperature 98.6) scores BP 3 via the diastolic
80–89 Stage-1 branch plus age 1, reaching the high-risk threshold 4. -/
theorem demoBatch_highRisk_ne_spec :
    (generateAlerts (processPatients demoBatch)).high_risk_patients ≠ ["B"] := by
  with_unfolding_all decide

/-- C1 (amended): running the batch pipeline on the three example
records yields high-risk `["A", "B"]` (totals 4 and 6), fever `["C"]`,
data-quality issues `["C"]`, and stats with total 3 and fullyValid 2. -/
theorem demoBatch_pipeline :
    (processPatients demoBatch).map calculateTotalRisk = [4, 6, 2] ∧
    (generateAlerts (processPatients demoBatch)).high_risk_patients = ["A", "B"] ∧
    (generateAlerts (processPatients demoBatch)).fever_patients = ["C"] ∧
    (generateAlerts (processPatients demoBatch)).data_quality_issues = ["C"] ∧
    (getProcessingStats (processPatients demoBatch)).total = 3 ∧
    (getProcessingStats (processPatients demoBatch)).fullyValid = 2 := by
  refine ⟨?_, ?_, ?_, ?_, ?_, ?_⟩ <;> with_unfolding_all rfl

/-- C2: for every processed patient holding a valid blood-pressure
pair, the score follows the four ordered rules first-match-wins, and
the five example readings score 1, 2, 3, 3 and 4. -/
theorem bpRisk_first_match :
    (∀ (p : ProcessedPatient) (sy di : ℚ),
      p.blood_pressure_data = ⟨true, some sy, some di⟩ →
      ((sy < 120 ∧ di < 80) → calculateBloodPressureRisk p = 1) ∧
      (¬(sy < 120 ∧ di < 80) → (120 ≤ sy ∧ sy ≤ 129 ∧ di < 80) →
        calculateBloodPressureRisk p = 2) ∧
      (¬(sy < 120 ∧ di < 80) → ¬(120 ≤ sy ∧ sy ≤ 129 ∧ di < 80) →
        ((130 ≤ sy ∧ sy ≤ 139) ∨ (80 ≤ di ∧ di ≤ 89)) →
        calculateBloodPressureRisk p = 3) ∧
      (¬(sy < 120 ∧ di < 80) → ¬(120 ≤ sy ∧ sy ≤ 129 ∧ di < 80) →
        ¬((130 ≤ sy ∧ sy ≤ 139) ∨ (80 ≤ di ∧ di ≤ 89)) →
        (140 ≤ sy ∨ 90 ≤ di) → calculateBloodPressureRisk p = 4)) ∧
    calculateBloodPressureRisk (mkBP 119 79) = 1 ∧
    calculateBloodPressureRisk (mkBP 125 70) = 2 ∧
    calculateBloodPressureRisk (mkBP 135 70) = 3 ∧
    calculateBloodPressureRisk (mkBP 110 85) = 3 ∧
    calculateBloodPressureRisk (mkBP 145 70) = 4 := by
  refine ⟨?_, ?b1, ?b2, ?b3, ?b4, ?b5⟩
  case b1 => with_unfolding_all rfl
  case b2 => with_unfolding_all rfl
  case b3 => with_unfolding_all rfl
  case b4 => with_unfolding_all rfl
  case b5 => with_unfolding_all rfl
  intro p sy di h
  simp only [calculateBloodPressureRisk, h, bpFinalStage]
  refine ⟨?_, ?_, ?_, ?_⟩ <;> intros <;> split_ifs <;>
    first
      | rfl
      | (exfalso; tauto)

/-- C2 (witness): the first-match rules applied to the concrete reading
110/85 give score 3 through the diastolic branch of rule 3. -/
theorem bpRisk_first_match_app : calculateBloodPressureRisk (mkBP 110 85) = 3 :=
  (bpRisk_first_match.1 (mkBP 110 85) 110 85 rfl).2.2.1
    (by norm_num) (by norm_num) (by norm_num)

/-- C7: an invalid field contributes score 0 in its dimension, the
total risk is the sum of the three dimension scores, and it never
exceeds 8. -/
theorem riskScore_structure (p : ProcessedPatient) :
    (p.age_data.valid = false → calculateAgeRisk p = 0) ∧
    (p.blood_pressure_data.valid = false → calculateBloodPressureRisk p = 0) ∧
    (p.temperature_data.valid = false → calculateTemperatureRisk p = 0) ∧
    calculateTotalRisk p =
      calculateBloodPressureRisk p + calculateTemperatureRisk p + calculateAgeRisk p ∧
    calculateTotalRisk p ≤ 8 := by
  refine ⟨?_, ?_, ?_, rfl, ?_⟩
  · intro h
    rcases hA : p.age_data with ⟨v, w⟩
    rw [hA] at h
    simp only at h
    subst h
    simp [calculateAgeRisk, hA]
  · intro h
    rcases hB : p.blood_pressure_data with ⟨v, w1, w2⟩
    rw [hB] at h
    simp only at h
    subst h
    simp [calculateBloodPressureRisk, hB]
  · intro h
    rcases hT : p.temperature_data with ⟨v, w⟩
    rw [hT] at h
    simp only at h
    subst h
    simp [calculateTemperatureRisk, hT]
  · have h1 := bpRisk_le_four p
    have h2 := tempRisk_le_two p
    have h3 := ageRisk_le_two p
    unfold calculateTotalRisk
    omega

/-- C7 (witness): on a patient with all three fields invalid, every
dimension scores 0. -/
theorem riskScore_structure_app :
    calculateAgeRisk allInvalidPatient = 0 ∧
    calculateBloodPressureRisk allInvalidPatient = 0 ∧
    calculateTemperatureRisk allInvalidPatient = 0 :=
  ⟨(riskScore_structure allInvalidPatient).1 rfl,
   (riskScore_structure allInvalidPatient).2.1 rfl,
   (riskScore_structure allInvalidPatient).2.2.1 rfl⟩

/-- C8: a patient has fever exactly when the temperature field is valid
and carries a value of at least 99.6; the predicate depends only on the
temperature field; and a high fever of 101.5 (temperature score 2)
still counts as fever. -/
theorem hasFever_characterization (p : ProcessedPatient) :
    (hasFever p = true ↔
      p.temperature_data.valid = true ∧
        ∃ v, p.temperature_data.value = some v ∧ 99.6 ≤ v) ∧
    (∀ q : ProcessedPatient, q.temperature_data = p.temperature_data →
      hasFever q = hasFever p) ∧
    (hasFever (mkTemp 101.5) = true ∧ calculateTemperatureRisk (mkTemp 101.5) = 2) := by
  refine ⟨?_, ?_, by with_unfolding_all rfl, by with_unfolding_all rfl⟩
  · unfold hasFever
    rcases hT : p.temperature_data with ⟨v, w⟩
    cases w <;> cases v <;> simp
  · intro q h
    unfold hasFever
    rw [h]

/-- C8 (witness): two patients that agree on the temperature field but
differ everywhere else agree on `hasFever`. -/
theorem hasFever_characterization_app : hasFever feverTwin = hasFever (mkTemp 100) :=
  (hasFever_characterization (mkTemp 100)).2.1 feverTwin rfl

/-- C10: the temperature normalizer accepts `"98.6abc"` with value 98.6
because the numeric parser takes the leading numeric prefix; the same
applies to each side of a blood-pressure string (`"120abc/80"` parses
as 120/80); the age normalizer instead rejects every string whose
trimmed form contains any character outside digits and the decimal
point. -/
theorem parseTolerance :
    processTemperature (.str "98.6abc") = ⟨true, some 98.6⟩ ∧
    processBloodPressure (.str "120abc/80") = ⟨true, some 120, some 80⟩ ∧
    ∀ s : String, (∃ c ∈ (jsTrim s).toList, ¬(c.isDigit = true ∨ c = '.')) →
      (processAge (.str s)).valid = false := by
  refine ⟨by with_unfolding_all rfl, by with_unfolding_all rfl, ?_⟩
  rintro s ⟨c, hc, hnc⟩
  by_cases hs : s = ""
  · subst hs; rfl
  · by_cases hap : agePattern (jsTrim s) = true
    · exact absurd (agePattern_chars hap c hc) hnc
    · simp [processAge, hs, hap]

/-- C10 (witness): the age normalizer rejects the very string
`"98.6abc"` that the temperature normalizer accepts. -/
theorem parseTolerance_app : (processAge (.str "98.6abc")).valid = false :=
  parseTolerance.2.2 "98.6abc" ⟨'a', by with_unfolding_all decide, by decide⟩

/-- C3 (counterexample): 99.55 is a valid temperature value (inside
[90,110]) yet falls in none of the three scoring bands — the patient
carrying it lands in the final fall-through: score 0 via the
invalid/missing case and category Invalid. -/
theorem tempGap_cex :
    (processTemperature (.num 99.55)).valid = true ∧
    (processTemperature (.num 99.55)).value = some 99.55 ∧
    ¬((99.55 : ℚ) ≤ 99.5) ∧
    ¬(99.6 ≤ (99.55 : ℚ) ∧ (99.55 : ℚ) ≤ 100.9) ∧
    ¬(101 ≤ (99.55 : ℚ)) ∧
    getTemperatureCategory tempGapPatient = .invalid ∧
    calculateTemperatureRisk tempGapPatient = 0 := by
  refine ⟨?_, ?_, ?_, ?_, ?_, ?_, ?_⟩ <;> with_unfolding_all decide

/-- C3 (amended): on a valid temperature v the score is 0 for
v ≤ 99.5, 1 on [99.6, 100.9] and 2 for v ≥ 101, but the bands do not
cover all of [90,110]: values in the gaps (99.5, 99.6) and
(100.9, 101) fall through to the invalid/missing case, scoring 0 with
category Invalid. -/
theorem tempRisk_bands (p : ProcessedPatient) (v : ℚ)
    (h : p.temperature_data = ⟨true, some v⟩) :
    (v ≤ 99.5 → calculateTemperatureRisk p = 0) ∧
    (99.6 ≤ v ∧ v ≤ 100.9 → calculateTemperatureRisk p = 1) ∧
    (101 ≤ v → calculateTemperatureRisk p = 2) ∧
    ((99.5 < v ∧ v < 99.6) ∨ (100.9 < v ∧ v < 101) →
      calculateTemperatureRisk p = 0 ∧ getTemperatureCategory p = .invalid) := by
  refine ⟨?_, ?_, ?_, ?_⟩
  · intro hv
    simp only [calculateTemperatureRisk, h]
    rw [if_pos hv]
  · intro hv
    simp only [calculateTemperatureRisk, h]
    rw [if_neg (by linarith [hv.1]), if_pos hv]
  · intro hv
    simp only [calculateTemperatureRisk, h]
    rw [if_neg (by linarith), if_neg (by rintro ⟨_, h2⟩; linarith), if_pos hv]
  · intro hv
    have h1 : ¬ v ≤ 99.5 := by rcases hv with ⟨a, b⟩ | ⟨a, b⟩ <;> linarith
    have h2 : ¬ (99.6 ≤ v ∧ v ≤ 100.9) := by
      rintro ⟨a, b⟩
      rcases hv with ⟨c, d⟩ | ⟨c, d⟩ <;> linarith
    have h3 : ¬ 101 ≤ v := by rcases hv with ⟨a, b⟩ | ⟨a, b⟩ <;> linarith
    simp only [calculateTemperatureRisk, getTemperatureCategory, h]
    rw [if_neg h1, if_neg h2, if_neg h3, if_neg h1, if_neg h2, if_neg h3]
    exact ⟨rfl, rfl⟩

/-- C3 (witness): the amended statement applied at the concrete valid
gap temperature 99.55. -/
theorem tempRisk_bands_app :
    calculateTemperatureRisk tempGapPatient = 0 ∧
    getTemperatureCategory tempGapPatient = TemperatureCategory.invalid :=
  (tempRisk_bands tempGapPatient 99.55 (by with_unfolding_all rfl)).2.2.2
    (Or.inl ⟨by norm_num, by norm_num⟩)

/-- C4 (counterexample): a record whose patient_id is " A " (padded
with whitespace) is accepted by the batch and keeps the padding in its
normalized id, so the id is not the trimmed patient_id. -/
theorem paddedId_cex :
    (processPatients [paddedIdPatient]).map ProcessedPatient.id = [" A "] ∧
    jsTrim " A " = "A" ∧ (" A " : String) ≠ "A" := by
  refine ⟨?_, ?_, ?_⟩ <;> with_unfolding_all decide

/-- C4 (amended): the normalized id is the raw patient_id verbatim
(no trimming — the source's `validatePatientId` helper is dead code),
and exactly the records whose patient_id is absent or the empty string
are excluded: dropping them from the input leaves the batch output
unchanged. -/
theorem processPatients_ids (ps : List Patient) :
    (processPatients ps).map ProcessedPatient.id =
      ps.filterMap (fun p =>
        match p.patient_id with
        | none => none
        | some s => if s = "" then none else some s) ∧
    processPatients ps =
      processPatients (ps.filter (fun p =>
        match p.patient_id with
        | none => false
        | some s => !(s == ""))) := by
  induction ps with
  | nil => exact ⟨rfl, rfl⟩
  | cons p ps ih =>
    rcases hid : p.patient_id with _ | s
    · simpa [processPatients, List.filterMap_cons, List.filter_cons, hid] using ih
    · by_cases hs : s = ""
      · subst hs
        simpa [processPatients, List.filterMap_cons, List.filter_cons, hid] using ih
      · simpa [processPatients, processPatient, List.filterMap_cons, List.filter_cons, hid, hs] using ih

/-- C5: the age normalizer agrees everywhere with the claim's
description (number with 0 < n < 150 kept unrounded; trimmed string
matching the unsigned integer-or-decimal pattern with parsed value in
the open interval, rounded; everything else invalid with no value). -/
theorem processAge_eq_spec (v : Value) : processAge v = specAgeNormalizer v := by
  cases v <;> try rfl
  case str s =>
    by_cases hs : s = ""
    · subst hs
      with_unfolding_all rfl
    · simp [processAge, specAgeNormalizer, hs]

/-- An all-three-valid test is the negation of `hasDataQualityIssues`. -/
theorem allValid_eq_not_hasDQ (p : ProcessedPatient) :
    (p.age_data.valid && p.blood_pressure_data.valid && p.temperature_data.valid) =
      !hasDataQualityIssues p := by
  unfold hasDataQualityIssues
  cases p.age_data.valid <;> cases p.blood_pressure_data.valid <;>
    cases p.temperature_data.valid <;> rfl

/-- A Boolean predicate and its negation count a list exhaustively. -/
theorem countP_split {α : Type} (l : List α) (p : α → Bool) :
    l.countP (fun a => !p a) + l.countP p = l.length := by
  induction l with
  | nil => rfl
  | cons a l ih =>
    cases hp : p a <;> simp [List.countP_cons, hp] <;> omega

/-- One statistics step: `total` is untouched and exactly one of the
`fullyValid` / `dataQualityIssues` counters advances, according to
`hasDataQualityIssues`. -/
theorem statStep_proj (st : Stats) (p : ProcessedPatient) :
    (statStep st p).total = st.total ∧
    (statStep st p).fullyValid =
      st.fullyValid + (if !hasDataQualityIssues p then 1 else 0) ∧
    (statStep st p).dataQualityIssues =
      st.dataQualityIssues + (if !hasDataQualityIssues p then 0 else 1) := by
  refine ⟨rfl, ?_, ?_⟩ <;> rw [← allValid_eq_not_hasDQ] <;> rfl

/-- Folding the statistics step keeps `total` and accumulates the
fully-valid and issue counters. -/
theorem statStep_foldl (ps : List ProcessedPatient) (st : Stats) :
    (ps.foldl statStep st).total = st.total ∧
    (ps.foldl statStep st).fullyValid =
      st.fullyValid + ps.countP (fun p => !hasDataQualityIssues p) ∧
    (ps.foldl statStep st).dataQualityIssues =
      st.dataQualityIssues + ps.countP (fun p => hasDataQualityIssues p) := by
  induction ps generalizing st with
  | nil => simp
  | cons p ps ih =>
    obtain ⟨h1, h2, h3⟩ := ih (statStep st p)
    obtain ⟨g1, g2, g3⟩ := statStep_proj st p
    rw [List.foldl_cons]
    refine ⟨by rw [h1, g1], ?_, ?_⟩
    · rw [h2, g2, List.countP_cons]
      cases hq : hasDataQualityIssues p <;> simp [hq] <;> omega
    · rw [h3, g3, List.countP_cons]
      cases hq : hasDataQualityIssues p <;> simp [hq] <;> omega

/-- C9: every processed patient is counted in exactly one of
`fullyValid` and `dataQualityIssues` (their sum is `total`), and the
issue counter counts precisely the patients for which
`hasDataQualityIssues` holds. -/
theorem stats_partition (ps : List ProcessedPatient) :
    (getProcessingStats ps).fullyValid + (getProcessingStats ps).dataQualityIssues =
      (getProcessingStats ps).total ∧
    (getProcessingStats ps).dataQualityIssues =
      ps.countP (fun p => hasDataQualityIssues p) ∧
    (getProcessingStats ps).fullyValid =
      ps.countP (fun p => !hasDataQualityIssues p) := by
  obtain ⟨h1, h2, h3⟩ := statStep_foldl ps ⟨ps.length, 0, 0, 0, 0, 0⟩
  unfold getProcessingStats
  rw [h1, h2, h3]
  refine ⟨?_, by simp, by simp⟩
  simp only [Nat.zero_add]
  exact countP_split ps (fun p => hasDataQualityIssues p)

/-- Splitting a character list free of slashes yields the singleton. -/
theorem splitSlash_of_no_slash {cs : List Char} (h : '/' ∉ cs) :
    splitSlash cs = [cs] := by
  induction cs with
  | nil => rfl
  | cons c rest ih =>
    rw [List.mem_cons, not_or] at h
    obtain ⟨h1, h2⟩ := h
    simp only [splitSlash, ih h2]
    rw [if_neg (fun hc => h1 hc.symm)]

/-- The conjunction of the two range checks spelled out as bounds. -/
theorem bpPair_iff (sy di : ℚ) :
    (isValidBloodPressureValue sy true && isValidBloodPressureValue di false) = true ↔
      70 ≤ sy ∧ sy ≤ 300 ∧ 40 ≤ di ∧ di ≤ 200 := by
  simp [isValidBloodPressureValue, and_assoc]

/-- C6: the blood-pressure normalizer accepts an input exactly when the
claim's conditions hold — a clean slash-separated numeric string pair
or a numeric-coercible object, with systolic in [70,300] and diastolic
in [40,200]. -/
theorem processBP_valid_iff (v : Value) :
    (processBloodPressure v).valid = true ↔ bpClaimValid v := by
  cases v with
  | null => simp [processBloodPressure, bpClaimValid]
  | undefined => simp [processBloodPressure, bpClaimValid]
  | num q => simp [processBloodPressure, bpClaimValid]
  | nan => simp [processBloodPressure, bpClaimValid]
  | bool b => simp [processBloodPressure, bpClaimValid]
  | obj sysV diaV =>
    rcases hsy : parseNumericValue sysV with _ | sy <;>
      rcases hdi : parseNumericValue diaV with _ | di <;>
        simp only [processBloodPressure, bpClaimValid, hsy, hdi]
    · simp
    · simp
    · simp
    · constructor
      · intro hv
        by_cases hcond :
            (isValidBloodPressureValue sy true && isValidBloodPressureValue di false) = true
        · obtain ⟨r1, r2, r3, r4⟩ := (bpPair_iff sy di).mp hcond
          exact ⟨sy, di, rfl, rfl, r1, r2, r3, r4⟩
        · rw [if_neg hcond] at hv
          cases hv
      · rintro ⟨sy', di', hs', hd', r1, r2, r3, r4⟩
        obtain rfl : sy = sy' := by injection hs'
        obtain rfl : di = di' := by injection hd'
        rw [if_pos ((bpPair_iff sy di).mpr ⟨r1, r2, r3, r4⟩)]
  | str s =>
    by_cases hs : s = ""
    · subst hs
      constructor
      · intro h
        exact absurd h (by with_unfolding_all decide)
      · rintro ⟨_, _, _, a, b, sy, di, hsp, _⟩
        rw [show (jsTrim "").toList = [] from rfl] at hsp
        simp [splitSlash] at hsp
    · simp only [processBloodPressure, bpClaimValid, if_neg hs]
      by_cases hinv : containsCI (jsTrim s) "invalid" = true
      · simp [hinv]
      · by_cases hna : containsCI (jsTrim s) "n/a" = true
        · simp [hinv, hna]
        · by_cases herr : containsCI (jsTrim s) "error" = true
          · simp [hinv, hna, herr]
          · by_cases hsl : (jsTrim s).toList.contains '/' = true
            · have hin : '/' ∈ (jsTrim s).data := by simpa using hsl
              rcases hsp : splitSlash (jsTrim s).toList with _ | ⟨a, rest⟩
              · simp [hinv, hna, herr, hin, hsp]
              · rcases rest with _ | ⟨b, rest2⟩
                · simp [hinv, hna, herr, hin, hsp]
                · rcases rest2 with _ | ⟨c, rest3⟩
                  · -- the two-part case
                    by_cases ha : jsTrim (String.mk a) = ""
                    · simp [hinv, hna, herr, hin, hsp, ha]
                    · by_cases hb : jsTrim (String.mk b) = ""
                      · simp [hinv, hna, herr, hin, hsp, ha, hb]
                      · rcases hpa : parseNumericValue (.str (jsTrim (String.mk a))) with _ | sy
                        · simp [hinv, hna, herr, hin, hsp, ha, hb, hpa]
                        · rcases hpb : parseNumericValue (.str (jsTrim (String.mk b))) with _ | di
                          · simp [hinv, hna, herr, hin, hsp, ha, hb, hpa, hpb]
                          · by_cases hcond : (isValidBloodPressureValue sy true &&
                                isValidBloodPressureValue di false) = true
                            · obtain ⟨r1, r2, r3, r4⟩ := (bpPair_iff sy di).mp hcond
                              simp [hinv, hna, herr, hin, hsp, ha, hb, hpa, hpb, hcond,
                                r1, r2, r3, r4, and_assoc]
                            · have hx : ¬(70 ≤ sy ∧ sy ≤ 300 ∧ 40 ≤ di ∧ di ≤ 200) :=
                                fun hr => hcond ((bpPair_iff sy di).mpr hr)
                              simpa [hinv, hna, herr, hin, hsp, ha, hb, hpa, hpb, hcond,
                                and_assoc] using hx
                  · simp [hinv, hna, herr, hin, hsp]
            · have hnin : '/' ∉ (jsTrim s).data := by simpa using hsl
              have hsp := splitSlash_of_no_slash hnin
              simp [hinv, hna, herr, hnin, hsp]

end Healthcare
